import Mathlib

/-!
Verification of the memory consistency argument of `memory_stark.rs`
(module `evm/src/memory`), a STARK arithmetization that proves a virtual
machine's memory trace is consistent: operations are canonically sorted by
address then time, address changes are detected by priority-encoded flags,
monotonicity is enforced by a range check backed by a permutation lookup,
and each identity is emitted both by a direct field evaluator
(`eval_packed_generic`) and by a recursive-circuit evaluator
(`eval_ext_circuit`).

Field elements: `GoldilocksField` is a transparent `u64` wrapper;
`to_noncanonical_u64` is the identity on the representation and
`to_canonical_u64` reduces modulo the order `0xFFFFFFFF00000001`.
Trace-generation functions are generic over the field (`F: RichField` in
the source); the constraint evaluators use only ring operations of the
packed value / extension target types, so they are embedded generically
over a commutative ring.

Rust `usize` subtraction `num_ops - 1` panics (debug: overflow check;
release: the wrapped bound makes the first out-of-bounds index panic) when
`num_ops = 0`; functions reachable with an empty column are therefore
embedded with an `Option` result, `none` standing for the panic.
-/

namespace MemoryStarkSpec

/-- Column layout of the memory STARK trace.  Modelled from the spec:
`memory/registers.rs` (the column-index module) is not among the provided
source files; the spec's data model (raw columns, sorted counterparts,
three first-change flags, `range_check`, `counter` and the two permuted
lookup columns) fixes the set of columns, and only the distinctness of the
indices matters to the statements below.  Raw execution-order columns come
first, then their sorted counterparts, then the derived columns. -/
def NUM_REGISTERS : ℕ := 33

def TIMESTAMP : Fin NUM_REGISTERS := ⟨0, by decide⟩

def IS_READ : Fin NUM_REGISTERS := ⟨1, by decide⟩

def ADDR_CONTEXT : Fin NUM_REGISTERS := ⟨2, by decide⟩

def ADDR_SEGMENT : Fin NUM_REGISTERS := ⟨3, by decide⟩

def ADDR_VIRTUAL : Fin NUM_REGISTERS := ⟨4, by decide⟩

/-- Columns of the eight raw value limbs (`value_limb(j)` in the source). -/
def value_limb (j : Fin 8) : Fin NUM_REGISTERS := ⟨5 + j.val, by simp [NUM_REGISTERS]; omega⟩

def SORTED_TIMESTAMP : Fin NUM_REGISTERS := ⟨13, by decide⟩

def SORTED_IS_READ : Fin NUM_REGISTERS := ⟨14, by decide⟩

def SORTED_ADDR_CONTEXT : Fin NUM_REGISTERS := ⟨15, by decide⟩

def SORTED_ADDR_SEGMENT : Fin NUM_REGISTERS := ⟨16, by decide⟩

def SORTED_ADDR_VIRTUAL : Fin NUM_REGISTERS := ⟨17, by decide⟩

/-- Columns of the eight sorted value limbs (`sorted_value_limb(j)`). -/
def sorted_value_limb (j : Fin 8) : Fin NUM_REGISTERS := ⟨18 + j.val, by simp [NUM_REGISTERS]; omega⟩

def CONTEXT_FIRST_CHANGE : Fin NUM_REGISTERS := ⟨26, by decide⟩

def SEGMENT_FIRST_CHANGE : Fin NUM_REGISTERS := ⟨27, by decide⟩

def VIRTUAL_FIRST_CHANGE : Fin NUM_REGISTERS := ⟨28, by decide⟩

def RANGE_CHECK : Fin NUM_REGISTERS := ⟨29, by decide⟩

def COUNTER : Fin NUM_REGISTERS := ⟨30, by decide⟩

def RANGE_CHECK_PERMUTED : Fin NUM_REGISTERS := ⟨31, by decide⟩

def COUNTER_PERMUTED : Fin NUM_REGISTERS := ⟨32, by decide⟩

/-- Tag with which a constraint is handed to the constraint consumer:
`constraint` (checked on every row), `constraint_transition` (checked on
every row but the last) or `constraint_last_row`. -/
inductive Tag : Type
  | every : Tag
  | transition : Tag
  | lastRow : Tag
deriving DecidableEq, Repr

/-- The `StarkEvaluationVars` handed to an evaluator: one assignment of the
trace columns on the local row and one on the next row.  `R` plays the role
of the packed field `P` of `eval_packed_generic`, respectively of the
extension targets of `eval_ext_circuit`. -/
structure StarkEvalVars (R : Type) : Type where
  local_values : Fin NUM_REGISTERS → R
  next_values : Fin NUM_REGISTERS → R

/-- Circuit-builder call `builder.one_extension()`: its denotation as a
ring value. -/
def one_extension {R : Type} [CommRing R] : R := 1

/-- Circuit-builder call `builder.add_extension(a, b)`. -/
def add_extension {R : Type} [CommRing R] (a b : R) : R := a + b

/-- Circuit-builder call `builder.sub_extension(a, b)`. -/
def sub_extension {R : Type} [CommRing R] (a b : R) : R := a - b

/-- Circuit-builder call `builder.mul_extension(a, b)`. -/
def mul_extension {R : Type} [CommRing R] (a b : R) : R := a * b

/-- Embedding of `MemoryStark::eval_packed_generic`: the list of tagged
constraint values handed to the `ConstraintConsumer`, in emission order. -/
def eval_packed_generic {R : Type} [CommRing R] (vars : StarkEvalVars R) :
    List (Tag × R) :=
  let one : R := 1
  let timestamp := vars.local_values SORTED_TIMESTAMP
  let addr_context := vars.local_values SORTED_ADDR_CONTEXT
  let addr_segment := vars.local_values SORTED_ADDR_SEGMENT
  let addr_virtual := vars.local_values SORTED_ADDR_VIRTUAL
  let values : Fin 8 → R := fun i => vars.local_values (sorted_value_limb i)
  let next_timestamp := vars.next_values SORTED_TIMESTAMP
  let next_is_read := vars.next_values SORTED_IS_READ
  let next_addr_context := vars.next_values SORTED_ADDR_CONTEXT
  let next_addr_segment := vars.next_values SORTED_ADDR_SEGMENT
  let next_addr_virtual := vars.next_values SORTED_ADDR_VIRTUAL
  let next_values : Fin 8 → R := fun i => vars.next_values (sorted_value_limb i)
  let context_first_change := vars.local_values CONTEXT_FIRST_CHANGE
  let segment_first_change := vars.local_values SEGMENT_FIRST_CHANGE
  let virtual_first_change := vars.local_values VIRTUAL_FIRST_CHANGE
  let address_unchanged :=
    one - context_first_change - segment_first_change - virtual_first_change
  let range_check := vars.local_values RANGE_CHECK
  let not_context_first_change := one - context_first_change
  let not_segment_first_change := one - segment_first_change
  let not_virtual_first_change := one - virtual_first_change
  let not_address_unchanged := one - address_unchanged
  let range_check_value :=
    context_first_change * (next_addr_context - addr_context - one)
      + segment_first_change * (next_addr_segment - addr_segment - one)
      + virtual_first_change * (next_addr_virtual - addr_virtual - one)
      + address_unchanged * (next_timestamp - timestamp - one)
  let local_perm_input := vars.local_values RANGE_CHECK_PERMUTED
  let next_perm_table := vars.next_values COUNTER_PERMUTED
  let next_perm_input := vars.next_values COUNTER_PERMUTED
  let diff_input_prev := next_perm_input - local_perm_input
  let diff_input_table := next_perm_input - next_perm_table
  [(Tag.every, context_first_change * not_context_first_change),
   (Tag.every, segment_first_change * not_segment_first_change),
   (Tag.every, virtual_first_change * not_virtual_first_change),
   (Tag.every, address_unchanged * not_address_unchanged),
   (Tag.transition, segment_first_change * (next_addr_context - addr_context)),
   (Tag.transition, virtual_first_change * (next_addr_context - addr_context)),
   (Tag.transition, virtual_first_change * (next_addr_segment - addr_segment)),
   (Tag.transition, address_unchanged * (next_addr_context - addr_context)),
   (Tag.transition, address_unchanged * (next_addr_segment - addr_segment)),
   (Tag.transition, address_unchanged * (next_addr_virtual - addr_virtual)),
   (Tag.transition, range_check - range_check_value)]
  ++ (List.finRange 8).map (fun i =>
       (Tag.every, next_is_read * address_unchanged * (next_values i - values i)))
  ++ [(Tag.every, diff_input_prev * diff_input_table),
      (Tag.lastRow, diff_input_table)]

/-- Embedding of `MemoryStark::eval_ext_circuit`: the list of tagged
constraint targets handed to the `RecursiveConstraintConsumer`, each
circuit-builder call replaced by its ring denotation, in emission order. -/
def eval_ext_circuit {R : Type} [CommRing R] (vars : StarkEvalVars R) :
    List (Tag × R) :=
  let one : R := one_extension
  let addr_context := vars.local_values SORTED_ADDR_CONTEXT
  let addr_segment := vars.local_values SORTED_ADDR_SEGMENT
  let addr_virtual := vars.local_values SORTED_ADDR_VIRTUAL
  let values : Fin 8 → R := fun i => vars.local_values (sorted_value_limb i)
  let timestamp := vars.local_values SORTED_TIMESTAMP
  let next_addr_context := vars.next_values SORTED_ADDR_CONTEXT
  let next_addr_segment := vars.next_values SORTED_ADDR_SEGMENT
  let next_addr_virtual := vars.next_values SORTED_ADDR_VIRTUAL
  let next_values : Fin 8 → R := fun i => vars.next_values (sorted_value_limb i)
  let next_is_read := vars.next_values SORTED_IS_READ
  let next_timestamp := vars.next_values SORTED_TIMESTAMP
  let context_first_change := vars.local_values CONTEXT_FIRST_CHANGE
  let segment_first_change := vars.local_values SEGMENT_FIRST_CHANGE
  let virtual_first_change := vars.local_values VIRTUAL_FIRST_CHANGE
  let address_unchanged :=
    sub_extension (sub_extension (sub_extension one context_first_change)
      segment_first_change) virtual_first_change
  let range_check := vars.local_values RANGE_CHECK
  let not_context_first_change := sub_extension one context_first_change
  let not_segment_first_change := sub_extension one segment_first_change
  let not_virtual_first_change := sub_extension one virtual_first_change
  let not_address_unchanged := sub_extension one address_unchanged
  let addr_context_diff := sub_extension next_addr_context addr_context
  let addr_segment_diff := sub_extension next_addr_segment addr_segment
  let addr_virtual_diff := sub_extension next_addr_virtual addr_virtual
  let context_first_change_bool :=
    mul_extension context_first_change not_context_first_change
  let segment_first_change_bool :=
    mul_extension segment_first_change not_segment_first_change
  let virtual_first_change_bool :=
    mul_extension virtual_first_change not_virtual_first_change
  let address_unchanged_bool :=
    mul_extension address_unchanged not_address_unchanged
  let segment_first_change_check :=
    mul_extension segment_first_change addr_context_diff
  let virtual_first_change_check_1 :=
    mul_extension virtual_first_change addr_context_diff
  let virtual_first_change_check_2 :=
    mul_extension virtual_first_change addr_segment_diff
  let address_unchanged_check_1 := mul_extension address_unchanged addr_context_diff
  let address_unchanged_check_2 := mul_extension address_unchanged addr_segment_diff
  let address_unchanged_check_3 := mul_extension address_unchanged addr_virtual_diff
  let context_diff :=
    sub_extension (sub_extension next_addr_context addr_context) one
  let context_range_check := mul_extension context_first_change context_diff
  let segment_diff :=
    sub_extension (sub_extension next_addr_segment addr_segment) one
  let segment_range_check := mul_extension segment_first_change segment_diff
  let virtual_diff :=
    sub_extension (sub_extension next_addr_virtual addr_virtual) one
  let virtual_range_check := mul_extension virtual_first_change virtual_diff
  let timestamp_diff :=
    sub_extension (sub_extension next_timestamp timestamp) one
  let timestamp_range_check := mul_extension address_unchanged timestamp_diff
  let range_check_value :=
    add_extension (add_extension (add_extension context_range_check
      segment_range_check) virtual_range_check) timestamp_range_check
  let range_check_diff := sub_extension range_check range_check_value
  let local_perm_input := vars.local_values RANGE_CHECK_PERMUTED
  let next_perm_table := vars.next_values COUNTER_PERMUTED
  let next_perm_input := vars.next_values COUNTER_PERMUTED
  let diff_input_prev := sub_extension next_perm_input local_perm_input
  let diff_input_table := sub_extension next_perm_input next_perm_table
  let diff_product := mul_extension diff_input_prev diff_input_table
  [(Tag.every, context_first_change_bool),
   (Tag.every, segment_first_change_bool),
   (Tag.every, virtual_first_change_bool),
   (Tag.every, address_unchanged_bool),
   (Tag.transition, segment_first_change_check),
   (Tag.transition, virtual_first_change_check_1),
   (Tag.transition, virtual_first_change_check_2),
   (Tag.transition, address_unchanged_check_1),
   (Tag.transition, address_unchanged_check_2),
   (Tag.transition, address_unchanged_check_3),
   (Tag.transition, range_check_diff)]
  ++ (List.finRange 8).map (fun i =>
       (Tag.every, mul_extension next_is_read
         (mul_extension address_unchanged
           (sub_extension (next_values i) (values i)))))
  ++ [(Tag.every, diff_product),
      (Tag.lastRow, diff_input_table)]

/-- Embedding of `MemoryStark::constraint_degree`. -/
def constraint_degree : ℕ := 3


/-- One memory operation, the element type `(F, F, F, F, F, [F; 8])` of the
operation log.  The eight value limbs are kept as a list of length 8. -/
structure Op (F : Type) : Type where
  timestamp : F
  is_read : F
  context : F
  segment : F
  virtuals : F
  values : List F
deriving DecidableEq, Repr

/-- The `izip!` of the six column slices into the operation list, truncating
at the shortest column as `izip!` does. -/
def izipOps {F : Type} :
    List F → List F → List F → List F → List F → List (List F) → List (Op F)
  | t :: ts, r :: rs, c :: cs, s :: ss, v :: vs, w :: ws =>
      ⟨t, r, c, s, v, w⟩ :: izipOps ts rs cs ss vs ws
  | _, _, _, _, _, _ => []

/-- The sort key comparison of `sort_memory_ops`: lexicographic order on
`(context, segment, virtual, timestamp)` after applying `key`, which models
`to_noncanonical_u64` (the `u64` representative of a field element). -/
def opKeyLex {F : Type} (key : F → ℕ) (a b : Op F) : Prop :=
  key a.context < key b.context ∨
    (key a.context = key b.context ∧
      (key a.segment < key b.segment ∨
        (key a.segment = key b.segment ∧
          (key a.virtuals < key b.virtuals ∨
            (key a.virtuals = key b.virtuals ∧
              key a.timestamp ≤ key b.timestamp)))))

instance {F : Type} (key : F → ℕ) (a b : Op F) : Decidable (opKeyLex key a b) := by
  unfold opKeyLex; infer_instance

/-- Embedding of `sort_memory_ops`: zip the six column slices into
operation tuples, stably sort them by the `(context, segment, virtual,
timestamp)` key of `u64` representatives (Rust's `sort_by_key` is a stable
sort, as is `List.mergeSort`), and unzip (`multiunzip`) back into six
columns. -/
def sort_memory_ops {F : Type} (key : F → ℕ)
    (timestamp is_read context segment virtuals : List F)
    (values : List (List F)) :
    List F × List F × List F × List F × List F × List (List F) :=
  let ops := izipOps timestamp is_read context segment virtuals values
  let sorted := ops.mergeSort (fun a b => decide (opKeyLex key a b))
  (sorted.map Op.timestamp, sorted.map Op.is_read, sorted.map Op.context,
   sorted.map Op.segment, sorted.map Op.virtuals, sorted.map Op.values)

/-- Per-index body of the loop of `generate_first_change_flags`: the triple
`(this_context_first_change, this_segment_first_change,
this_virtual_first_change)` computed for adjacent rows `idx`, `idx + 1`.
Field equality (`PartialEq` of `GoldilocksField`) compares canonical
representatives, i.e. is equality of field elements. -/
def firstChangeTriple {F : Type} [Field F] [DecidableEq F]
    (context segment virtuals : List F) (idx : ℕ) : F × F × F :=
  let c : F := if context.getD idx 0 ≠ context.getD (idx + 1) 0 then 1 else 0
  let s : F := if segment.getD idx 0 ≠ segment.getD (idx + 1) 0 then
    1 * (1 - c) else 0
  let v : F := if virtuals.getD idx 0 ≠ virtuals.getD (idx + 1) 0 then
    1 * (1 - c) * (1 - s) else 0
  (c, s, v)

/-- Embedding of `generate_first_change_flags`.  The Rust loop bound
`num_ops - 1` is a `usize` subtraction that panics when `num_ops = 0`
(modelled as `none`); otherwise the three flag columns are the per-index
triples for `idx` in `0 .. num_ops - 1`, each closed by a final pushed
zero. -/
def generate_first_change_flags {F : Type} [Field F] [DecidableEq F]
    (context segment virtuals : List F) :
    Option (List F × List F × List F) :=
  if context.length = 0 then none else
  let triples :=
    (List.range (context.length - 1)).map (firstChangeTriple context segment virtuals)
  some (triples.map (fun x => x.1) ++ [0],
    triples.map (fun x => x.2.1) ++ [0],
    triples.map (fun x => x.2.2) ++ [0])

/-- Embedding of `generate_range_check_value`.  The loop bound
`num_ops - 1` panics when `num_ops = 0` (modelled as `none`); otherwise
each entry `idx < num_ops - 1` is the flag-weighted sum of the three
address deltas and the timestamp delta, closed by a final pushed zero. -/
def generate_range_check_value {F : Type} [Field F] [DecidableEq F]
    (context segment virtuals timestamp : List F)
    (context_first_change segment_first_change virtual_first_change : List F) :
    Option (List F) :=
  if context.length = 0 then none else
  some ((List.range (context.length - 1)).map (fun idx =>
    let this_address_unchanged : F := 1
      - context_first_change.getD idx 0
      - segment_first_change.getD idx 0
      - virtual_first_change.getD idx 0
    context_first_change.getD idx 0
        * (context.getD (idx + 1) 0 - context.getD idx 0 - 1)
      + segment_first_change.getD idx 0
        * (segment.getD (idx + 1) 0 - segment.getD idx 0 - 1)
      + virtual_first_change.getD idx 0
        * (virtuals.getD (idx + 1) 0 - virtuals.getD idx 0 - 1)
      + this_address_unchanged
        * (timestamp.getD (idx + 1) 0 - timestamp.getD idx 0 - 1)) ++ [0])

/-- Modelled from the spec: the external lookup helper `permuted_cols` of
`crate::util` is not among the provided source files; the spec treats it
purely as an interface contract returning a permutation of the input
column and of the table column.  Its output values are irrelevant to the
claims below (only which trace columns receive them matters), so it is
modelled as the stable sort of each column by representative. -/
def permuted_cols {F : Type} (key : F → ℕ) (inputs table : List F) :
    List F × List F :=
  (inputs.mergeSort (fun a b => decide (key a ≤ key b)),
   table.mergeSort (fun a b => decide (key a ≤ key b)))

/-- Embedding of `MemoryStark::generate_memory`: reads the raw columns,
sorts the operations, derives the flag, range-check, counter and permuted
lookup columns, and writes them back over the trace columns; `none` models
the panic propagated from flag generation on an empty trace.  `key` models
`to_noncanonical_u64`. -/
def generate_memory {F : Type} [Field F] [DecidableEq F] (key : F → ℕ)
    (trace_cols : Fin NUM_REGISTERS → List F) :
    Option (Fin NUM_REGISTERS → List F) := do
  let num_trace_rows := (trace_cols TIMESTAMP).length
  let timestamp := trace_cols TIMESTAMP
  let is_read := trace_cols IS_READ
  let context := trace_cols ADDR_CONTEXT
  let segment := trace_cols ADDR_SEGMENT
  let virtuals := trace_cols ADDR_VIRTUAL
  let values : List (List F) := (List.range num_trace_rows).map (fun i =>
    (List.finRange 8).map (fun j => (trace_cols (value_limb j)).getD i 0))
  let sorted := sort_memory_ops key timestamp is_read context segment virtuals values
  let (context_first_change, segment_first_change, virtual_first_change) ←
    generate_first_change_flags sorted.2.2.1 sorted.2.2.2.1 sorted.2.2.2.2.1
  let range_check_value ← generate_range_check_value
    sorted.2.2.1 sorted.2.2.2.1 sorted.2.2.2.2.1 sorted.1
    context_first_change segment_first_change virtual_first_change
  let cols := Function.update trace_cols SORTED_TIMESTAMP sorted.1
  let cols := Function.update cols SORTED_IS_READ sorted.2.1
  let cols := Function.update cols SORTED_ADDR_CONTEXT sorted.2.2.1
  let cols := Function.update cols SORTED_ADDR_SEGMENT sorted.2.2.2.1
  let cols := Function.update cols SORTED_ADDR_VIRTUAL sorted.2.2.2.2.1
  let sorted_values := sorted.2.2.2.2.2
  let cols := (List.finRange 8).foldl (fun acc j =>
    Function.update acc (sorted_value_limb j)
      ((List.range num_trace_rows).map (fun i => (sorted_values.getD i []).getD j.val 0)))
    cols
  let cols := Function.update cols CONTEXT_FIRST_CHANGE context_first_change
  let cols := Function.update cols SEGMENT_FIRST_CHANGE segment_first_change
  let cols := Function.update cols VIRTUAL_FIRST_CHANGE virtual_first_change
  let cols := Function.update cols RANGE_CHECK range_check_value
  let cols := Function.update cols COUNTER
    ((List.range (trace_cols TIMESTAMP).length).map (fun i => (i : F)))
  let permuted := permuted_cols key (cols RANGE_CHECK) (cols COUNTER)
  let cols := Function.update cols RANGE_CHECK_PERMUTED permuted.1
  let cols := Function.update cols COUNTER_PERMUTED permuted.2
  some cols

/-- Initial trace columns of `generate_trace_rows`: the raw operation
fields written into the raw columns, every other column the zero column of
the same length. -/
def initTraceCols {F : Type} [Field F] (memory_ops : List (Op F)) :
    Fin NUM_REGISTERS → List F :=
  fun reg =>
    if reg = TIMESTAMP then memory_ops.map Op.timestamp
    else if reg = IS_READ then memory_ops.map Op.is_read
    else if reg = ADDR_CONTEXT then memory_ops.map Op.context
    else if reg = ADDR_SEGMENT then memory_ops.map Op.segment
    else if reg = ADDR_VIRTUAL then memory_ops.map Op.virtuals
    else match (List.finRange 8).find? (fun j => reg = value_limb j) with
      | some j => memory_ops.map (fun o => o.values.getD j.val 0)
      | none => List.replicate memory_ops.length 0

/-- Embedding of `MemoryStark::generate_trace_rows`: build the initial
columns from the operation log, run `generate_memory`, and transpose the
columns into rows; `none` models the panic on an empty log. -/
def generate_trace_rows {F : Type} [Field F] [DecidableEq F] (key : F → ℕ)
    (memory_ops : List (Op F)) :
    Option (List (Fin NUM_REGISTERS → F)) := do
  let cols ← generate_memory key (initTraceCols memory_ops)
  some ((List.range memory_ops.length).map (fun i reg => (cols reg).getD i 0))

/-! ### Shared helper lemmas -/

/-- An element of a `map` over `List.range m` closed by one pushed entry,
read below the pushed entry. -/
lemma getD_map_range {A : Type} (m i : ℕ) (f : ℕ → A) (z d : A) (h : i < m) :
    (((List.range m).map f) ++ [z]).getD i d = f i := by
  rw [List.getD_append _ _ _ _ (by simpa using h),
    List.getD_eq_getElem _ _ (by simpa using h)]
  simp

/-- The pushed closing entry of a `map` over `List.range m`. -/
lemma getD_map_range_last {A : Type} (m : ℕ) (f : ℕ → A) (z d : A) :
    (((List.range m).map f) ++ [z]).getD m d = z := by
  rw [List.getD_append_right _ _ _ _ (by simp)]
  simp

/-! ### The two evaluators agree (C2) -/

/-- C2: for every assignment of local-row and next-row column values (over
any commutative ring, hence in particular as polynomials in the column
values), the tagged constraint list emitted by the circuit evaluator
`eval_ext_circuit` is identical to the one emitted by the direct evaluator
`eval_packed_generic`, tag for tag and polynomial for polynomial. -/
theorem eval_ext_circuit_eq_eval_packed_generic
    (R : Type) [CommRing R] (vars : StarkEvalVars R) :
    eval_ext_circuit vars = eval_packed_generic vars := by
  simp only [eval_ext_circuit, eval_packed_generic, one_extension, add_extension,
    sub_extension, mul_extension, mul_assoc]

/-! ### Read consistency (C5) -/

/-- C5: for each of the 8 limbs, both evaluators emit the every-row
read-consistency constraint
`is_read_next * address_unchanged * (value_limb_next - value_limb)`, and
whenever the next row is a read (`is_read_next = 1`) with address unchanged
(`address_unchanged = 1`) and the next value limb differs from the local
one, that emitted constraint evaluates to a non-zero value. -/
theorem read_consistency (R : Type) [CommRing R] (vars : StarkEvalVars R)
    (i : Fin 8) :
    ((Tag.every, vars.next_values SORTED_IS_READ
        * ((1 : R) - vars.local_values CONTEXT_FIRST_CHANGE
            - vars.local_values SEGMENT_FIRST_CHANGE
            - vars.local_values VIRTUAL_FIRST_CHANGE)
        * (vars.next_values (sorted_value_limb i)
            - vars.local_values (sorted_value_limb i)))
      ∈ eval_packed_generic vars) ∧
    ((Tag.every, vars.next_values SORTED_IS_READ
        * ((1 : R) - vars.local_values CONTEXT_FIRST_CHANGE
            - vars.local_values SEGMENT_FIRST_CHANGE
            - vars.local_values VIRTUAL_FIRST_CHANGE)
        * (vars.next_values (sorted_value_limb i)
            - vars.local_values (sorted_value_limb i)))
      ∈ eval_ext_circuit vars) ∧
    (vars.next_values SORTED_IS_READ = 1 →
      (1 : R) - vars.local_values CONTEXT_FIRST_CHANGE
        - vars.local_values SEGMENT_FIRST_CHANGE
        - vars.local_values VIRTUAL_FIRST_CHANGE = 1 →
      vars.next_values (sorted_value_limb i)
        ≠ vars.local_values (sorted_value_limb i) →
      vars.next_values SORTED_IS_READ
        * ((1 : R) - vars.local_values CONTEXT_FIRST_CHANGE
            - vars.local_values SEGMENT_FIRST_CHANGE
            - vars.local_values VIRTUAL_FIRST_CHANGE)
        * (vars.next_values (sorted_value_limb i)
            - vars.local_values (sorted_value_limb i)) ≠ 0) := by
  refine ⟨?_, ?_, ?_⟩
  · simp only [eval_packed_generic, List.mem_append, List.mem_cons, List.mem_map,
      List.mem_finRange, true_and]
    exact Or.inl (Or.inr ⟨i, rfl⟩)
  · simp only [eval_ext_circuit, one_extension, add_extension, sub_extension,
      mul_extension, List.mem_append, List.mem_cons, List.mem_map,
      List.mem_finRange, true_and]
    exact Or.inl (Or.inr ⟨i, by rw [mul_assoc]⟩)
  · intro h1 h2 h3
    rw [h1, h2, one_mul, one_mul]
    exact sub_ne_zero_of_ne h3

/-- Assignment used to witness the read-consistency claim: every local
column 0, every next column 1. -/
def readVars : StarkEvalVars ℤ := ⟨fun _ => 0, fun _ => 1⟩

/-- Witness for C5 at a concrete assignment: the next row is a read, the
address-unchanged value is 1 and limb 0 differs, so the read-consistency
constraint is non-zero. -/
theorem read_consistency_witness :
    readVars.next_values SORTED_IS_READ
      * ((1 : ℤ) - readVars.local_values CONTEXT_FIRST_CHANGE
          - readVars.local_values SEGMENT_FIRST_CHANGE
          - readVars.local_values VIRTUAL_FIRST_CHANGE)
      * (readVars.next_values (sorted_value_limb 0)
          - readVars.local_values (sorted_value_limb 0)) ≠ 0 :=
  (read_consistency ℤ readVars 0).2.2 rfl (by decide) (by decide)

/-! ### The lookup constraints are degenerate (C1) -/

/-- Assignment exhibiting the lookup defect: all columns 0 on both rows,
except the next row has `RANGE_CHECK_PERMUTED = 5` and
`COUNTER_PERMUTED = 7`. -/
def lookupVars : StarkEvalVars ℤ :=
  ⟨fun _ => 0,
   fun r => if r = RANGE_CHECK_PERMUTED then 5
     else if r = COUNTER_PERMUTED then 7 else 0⟩

/-- C1 (refuted; the code contradicts its own comments and variable names):
both evaluators load `next_perm_input` from the `COUNTER_PERMUTED` column
instead of `RANGE_CHECK_PERMUTED`, so the emitted every-row lookup
constraint is `(counter_permuted_next - range_check_permuted_local) *
(counter_permuted_next - counter_permuted_next)` and the boundary
constraint is `counter_permuted_next - counter_permuted_next`; both vanish
identically.  At `lookupVars` the emitted entries 19 (the lookup product)
and 20 (the boundary constraint) of both evaluators are 0, although the
constraints the claim describes evaluate to the non-zero values
`(5 - 0) * (5 - 7)` and `5 - 7`. -/
theorem lookup_constraints_vacuous :
    ((eval_packed_generic lookupVars).getD 19 (Tag.every, 37)).2 = 0 ∧
    (eval_packed_generic lookupVars).getD 20 (Tag.every, 37) = (Tag.lastRow, 0) ∧
    ((eval_ext_circuit lookupVars).getD 19 (Tag.every, 37)).2 = 0 ∧
    (eval_ext_circuit lookupVars).getD 20 (Tag.every, 37) = (Tag.lastRow, 0) ∧
    (lookupVars.next_values RANGE_CHECK_PERMUTED
        - lookupVars.local_values RANGE_CHECK_PERMUTED)
      * (lookupVars.next_values RANGE_CHECK_PERMUTED
        - lookupVars.next_values COUNTER_PERMUTED) ≠ 0 ∧
    lookupVars.next_values RANGE_CHECK_PERMUTED
      - lookupVars.next_values COUNTER_PERMUTED ≠ 0 := by
  refine ⟨by decide, by decide, by decide, by decide, by decide, by decide⟩

/-! ### Constraint degree (C8) -/

/-- Polynomials in one indeterminate per (row, column) pair: component 0
indexes the local row, component 1 the next row. -/
abbrev MvP : Type := MvPolynomial (Fin 2 × Fin NUM_REGISTERS) ℤ

lemma tdeg_X (v : Fin 2 × Fin NUM_REGISTERS) :
    (MvPolynomial.X v : MvP).totalDegree ≤ 1 :=
  le_of_eq (MvPolynomial.totalDegree_X v)

lemma tdeg_one {a : ℕ} : (1 : MvP).totalDegree ≤ a := by
  simp [MvPolynomial.totalDegree_one]

lemma tdeg_mul {p q : MvP} {a b : ℕ}
    (hp : p.totalDegree ≤ a) (hq : q.totalDegree ≤ b) :
    (p * q).totalDegree ≤ a + b :=
  le_trans (MvPolynomial.totalDegree_mul p q) (Nat.add_le_add hp hq)

lemma tdeg_sub {p q : MvP} {a : ℕ}
    (hp : p.totalDegree ≤ a) (hq : q.totalDegree ≤ a) :
    (p - q).totalDegree ≤ a :=
  le_trans (MvPolynomial.totalDegree_sub p q) (max_le hp hq)

lemma tdeg_add {p q : MvP} {a : ℕ}
    (hp : p.totalDegree ≤ a) (hq : q.totalDegree ≤ a) :
    (p + q).totalDegree ≤ a :=
  le_trans (MvPolynomial.totalDegree_add p q) (max_le hp hq)

/-- C8: `constraint_degree` returns 3, and every constraint polynomial
emitted by `eval_packed_generic` — booleanity, priority ordering,
range-check correctness, read consistency and the lookup constraints — has
total degree at most 3 in the local and next column values. -/
theorem constraint_degree_three :
    constraint_degree = 3 ∧
    List.Forall (fun c => c.2.totalDegree ≤ 3)
      (eval_packed_generic
        (StarkEvalVars.mk (fun i => (MvPolynomial.X ((0 : Fin 2), i) : MvP))
          (fun i => (MvPolynomial.X ((1 : Fin 2), i) : MvP)))) := by
  refine ⟨rfl, ?_⟩
  rw [List.forall_iff_forall_mem]
  intro c hc
  have hX : ∀ v : Fin 2 × Fin NUM_REGISTERS,
      (MvPolynomial.X v : MvP).totalDegree ≤ 1 := tdeg_X
  have hau : ∀ a b c : Fin 2 × Fin NUM_REGISTERS,
      ((1 : MvP) - MvPolynomial.X a - MvPolynomial.X b
        - MvPolynomial.X c).totalDegree ≤ 1 :=
    fun a b c => tdeg_sub (tdeg_sub (tdeg_sub tdeg_one (hX a)) (hX b)) (hX c)
  simp only [eval_packed_generic, List.mem_append, List.mem_cons,
    List.mem_map, List.mem_finRange, List.mem_singleton, List.not_mem_nil,
    or_false, true_and] at hc
  rcases hc with ((rfl | rfl | rfl | rfl | rfl | rfl | rfl | rfl | rfl | rfl | rfl)
    | ⟨i, rfl⟩) | (rfl | rfl)
  · exact le_trans (tdeg_mul (hX _) (tdeg_sub tdeg_one (hX _))) (by norm_num)
  · exact le_trans (tdeg_mul (hX _) (tdeg_sub tdeg_one (hX _))) (by norm_num)
  · exact le_trans (tdeg_mul (hX _) (tdeg_sub tdeg_one (hX _))) (by norm_num)
  · exact le_trans (tdeg_mul (hau _ _ _) (tdeg_sub tdeg_one (hau _ _ _)))
      (by norm_num)
  · exact le_trans (tdeg_mul (hX _) (tdeg_sub (hX _) (hX _))) (by norm_num)
  · exact le_trans (tdeg_mul (hX _) (tdeg_sub (hX _) (hX _))) (by norm_num)
  · exact le_trans (tdeg_mul (hX _) (tdeg_sub (hX _) (hX _))) (by norm_num)
  · exact le_trans (tdeg_mul (hau _ _ _) (tdeg_sub (hX _) (hX _))) (by norm_num)
  · exact le_trans (tdeg_mul (hau _ _ _) (tdeg_sub (hX _) (hX _))) (by norm_num)
  · exact le_trans (tdeg_mul (hau _ _ _) (tdeg_sub (hX _) (hX _))) (by norm_num)
  · refine le_trans (tdeg_sub (le_trans (hX _) (by norm_num)) ?_) le_rfl
    have hterm : ∀ f a b : Fin 2 × Fin NUM_REGISTERS,
        ((MvPolynomial.X f : MvP)
          * (MvPolynomial.X a - MvPolynomial.X b - 1)).totalDegree ≤ 3 :=
      fun f a b => le_trans
        (tdeg_mul (hX f) (tdeg_sub (tdeg_sub (hX a) (hX b)) tdeg_one))
        (by norm_num)
    refine tdeg_add (tdeg_add (tdeg_add (hterm _ _ _) (hterm _ _ _))
      (hterm _ _ _)) ?_
    exact le_trans
      (tdeg_mul (hau _ _ _) (tdeg_sub (tdeg_sub (hX _) (hX _)) tdeg_one))
      (by norm_num)
  · exact le_trans (tdeg_mul (tdeg_mul (hX _) (hau _ _ _))
      (tdeg_sub (hX _) (hX _))) (by norm_num)
  · exact le_trans (tdeg_mul (tdeg_sub (hX _) (hX _)) (tdeg_sub (hX _) (hX _)))
      (by norm_num)
  · exact le_trans (tdeg_sub (hX _) (hX _)) (by norm_num)

/-! ### First-change flags (C3, C4) -/

/-- Case analysis of the per-index loop body of
`generate_first_change_flags`: the flag triple is one-hot with strict
priority context, then segment, then virtual. -/
lemma firstChangeTriple_cases {F : Type} [Field F] [DecidableEq F]
    (context segment virtuals : List F) (i : ℕ) :
    (context.getD i 0 ≠ context.getD (i + 1) 0 →
      firstChangeTriple context segment virtuals i = (1, 0, 0)) ∧
    (context.getD i 0 = context.getD (i + 1) 0 →
      segment.getD i 0 ≠ segment.getD (i + 1) 0 →
      firstChangeTriple context segment virtuals i = (0, 1, 0)) ∧
    (context.getD i 0 = context.getD (i + 1) 0 →
      segment.getD i 0 = segment.getD (i + 1) 0 →
      virtuals.getD i 0 ≠ virtuals.getD (i + 1) 0 →
      firstChangeTriple context segment virtuals i = (0, 0, 1)) ∧
    (context.getD i 0 = context.getD (i + 1) 0 →
      segment.getD i 0 = segment.getD (i + 1) 0 →
      virtuals.getD i 0 = virtuals.getD (i + 1) 0 →
      firstChangeTriple context segment virtuals i = (0, 0, 0)) := by
  refine ⟨?_, ?_, ?_, ?_⟩ <;> intros <;>
    simp only [firstChangeTriple, Prod.mk.injEq] <;>
    split_ifs <;> simp_all

/-- Shape of a successful run of `generate_first_change_flags`: each flag
column lists the loop-body triples below the final pushed zero. -/
lemma generate_first_change_flags_spec {F : Type} [Field F] [DecidableEq F]
    (context segment virtuals cf sf vf : List F)
    (h : generate_first_change_flags context segment virtuals
      = some (cf, sf, vf)) :
    cf.length = context.length ∧ sf.length = context.length ∧
    vf.length = context.length ∧
    (∀ i, i < context.length - 1 →
      cf.getD i 0 = (firstChangeTriple context segment virtuals i).1 ∧
      sf.getD i 0 = (firstChangeTriple context segment virtuals i).2.1 ∧
      vf.getD i 0 = (firstChangeTriple context segment virtuals i).2.2) ∧
    cf.getD (context.length - 1) 0 = 0 ∧
    sf.getD (context.length - 1) 0 = 0 ∧
    vf.getD (context.length - 1) 0 = 0 := by
  by_cases hc : context.length = 0
  · simp [generate_first_change_flags, hc] at h
  rw [generate_first_change_flags, if_neg hc] at h
  injection h with h
  simp only [Prod.mk.injEq] at h
  obtain ⟨h1, h2, h3⟩ := h
  subst h1
  subst h2
  subst h3
  rw [List.map_map, List.map_map, List.map_map]
  have hlen : ∀ g : F × F × F → F,
      (((List.range (context.length - 1)).map
        (g ∘ firstChangeTriple context segment virtuals)) ++ [(0 : F)]).length
        = context.length := by
    intro g; simp; omega
  refine ⟨hlen _, hlen _, hlen _, ?_, ?_, ?_, ?_⟩
  · intro i hi
    exact ⟨getD_map_range _ _ _ _ _ hi, getD_map_range _ _ _ _ _ hi,
      getD_map_range _ _ _ _ _ hi⟩
  · exact getD_map_range_last _ _ _ _
  · exact getD_map_range_last _ _ _ _
  · exact getD_map_range_last _ _ _ _

instance : Fact (Nat.Prime 5) := ⟨by norm_num⟩

/-- C3: for sorted address columns of any common length `N ≥ 1`,
`generate_first_change_flags` produces flags such that, for each adjacent
pair `i, i + 1` with `i < N - 1`, exactly one of the three flags and the
derived `address_unchanged = 1 - (sum of the three)` equals 1, with strict
priority context, then segment, then virtual, then unchanged; and row
`N - 1` has all three flags equal to 0. -/
theorem first_change_flags_one_hot {F : Type} [Field F] [DecidableEq F]
    (context segment virtuals : List F) (N : ℕ)
    (hc : context.length = N) (hs : segment.length = N)
    (hv : virtuals.length = N) (hN : 1 ≤ N) (cf sf vf : List F)
    (h : generate_first_change_flags context segment virtuals
      = some (cf, sf, vf)) :
    (∀ i, i < N - 1 →
      (context.getD i 0 ≠ context.getD (i + 1) 0 →
        cf.getD i 0 = 1 ∧ sf.getD i 0 = 0 ∧ vf.getD i 0 = 0 ∧
        1 - cf.getD i 0 - sf.getD i 0 - vf.getD i 0 = 0) ∧
      (context.getD i 0 = context.getD (i + 1) 0 →
        segment.getD i 0 ≠ segment.getD (i + 1) 0 →
        cf.getD i 0 = 0 ∧ sf.getD i 0 = 1 ∧ vf.getD i 0 = 0 ∧
        1 - cf.getD i 0 - sf.getD i 0 - vf.getD i 0 = 0) ∧
      (context.getD i 0 = context.getD (i + 1) 0 →
        segment.getD i 0 = segment.getD (i + 1) 0 →
        virtuals.getD i 0 ≠ virtuals.getD (i + 1) 0 →
        cf.getD i 0 = 0 ∧ sf.getD i 0 = 0 ∧ vf.getD i 0 = 1 ∧
        1 - cf.getD i 0 - sf.getD i 0 - vf.getD i 0 = 0) ∧
      (context.getD i 0 = context.getD (i + 1) 0 →
        segment.getD i 0 = segment.getD (i + 1) 0 →
        virtuals.getD i 0 = virtuals.getD (i + 1) 0 →
        cf.getD i 0 = 0 ∧ sf.getD i 0 = 0 ∧ vf.getD i 0 = 0 ∧
        1 - cf.getD i 0 - sf.getD i 0 - vf.getD i 0 = 1)) ∧
    (cf.getD (N - 1) 0 = 0 ∧ sf.getD (N - 1) 0 = 0 ∧
      vf.getD (N - 1) 0 = 0) := by
  obtain ⟨hl1, hl2, hl3, hmid, hz1, hz2, hz3⟩ :=
    generate_first_change_flags_spec context segment virtuals cf sf vf h
  rw [hc] at hmid hz1 hz2 hz3
  refine ⟨?_, hz1, hz2, hz3⟩
  intro i hi
  obtain ⟨e1, e2, e3⟩ := hmid i hi
  obtain ⟨t1, t2, t3, t4⟩ := firstChangeTriple_cases context segment virtuals i
  refine ⟨?_, ?_, ?_, ?_⟩
  · intro h1
    rw [e1, e2, e3, t1 h1]
    norm_num
  · intro h1 h2
    rw [e1, e2, e3, t2 h1 h2]
    norm_num
  · intro h1 h2 h3
    rw [e1, e2, e3, t3 h1 h2 h3]
    norm_num
  · intro h1 h2 h3
    rw [e1, e2, e3, t4 h1 h2 h3]
    norm_num

/-- Witness for C3 on the concrete sorted columns `context = [0, 1]`,
`segment = [0, 0]`, `virtuals = [0, 0]` over `ZMod 5`, whose flag columns
are `([1, 0], [0, 0], [0, 0])`. -/
theorem first_change_flags_one_hot_witness :
    (∀ i, i < 2 - 1 →
      (([0, 1] : List (ZMod 5)).getD i 0 ≠ ([0, 1] : List (ZMod 5)).getD (i + 1) 0 →
        ([1, 0] : List (ZMod 5)).getD i 0 = 1 ∧
        ([0, 0] : List (ZMod 5)).getD i 0 = 0 ∧
        ([0, 0] : List (ZMod 5)).getD i 0 = 0 ∧
        1 - ([1, 0] : List (ZMod 5)).getD i 0 - ([0, 0] : List (ZMod 5)).getD i 0
          - ([0, 0] : List (ZMod 5)).getD i 0 = 0) ∧
      (([0, 1] : List (ZMod 5)).getD i 0 = ([0, 1] : List (ZMod 5)).getD (i + 1) 0 →
        ([0, 0] : List (ZMod 5)).getD i 0 ≠ ([0, 0] : List (ZMod 5)).getD (i + 1) 0 →
        ([1, 0] : List (ZMod 5)).getD i 0 = 0 ∧
        ([0, 0] : List (ZMod 5)).getD i 0 = 1 ∧
        ([0, 0] : List (ZMod 5)).getD i 0 = 0 ∧
        1 - ([1, 0] : List (ZMod 5)).getD i 0 - ([0, 0] : List (ZMod 5)).getD i 0
          - ([0, 0] : List (ZMod 5)).getD i 0 = 0) ∧
      (([0, 1] : List (ZMod 5)).getD i 0 = ([0, 1] : List (ZMod 5)).getD (i + 1) 0 →
        ([0, 0] : List (ZMod 5)).getD i 0 = ([0, 0] : List (ZMod 5)).getD (i + 1) 0 →
        ([0, 0] : List (ZMod 5)).getD i 0 ≠ ([0, 0] : List (ZMod 5)).getD (i + 1) 0 →
        ([1, 0] : List (ZMod 5)).getD i 0 = 0 ∧
        ([0, 0] : List (ZMod 5)).getD i 0 = 0 ∧
        ([0, 0] : List (ZMod 5)).getD i 0 = 1 ∧
        1 - ([1, 0] : List (ZMod 5)).getD i 0 - ([0, 0] : List (ZMod 5)).getD i 0
          - ([0, 0] : List (ZMod 5)).getD i 0 = 0) ∧
      (([0, 1] : List (ZMod 5)).getD i 0 = ([0, 1] : List (ZMod 5)).getD (i + 1) 0 →
        ([0, 0] : List (ZMod 5)).getD i 0 = ([0, 0] : List (ZMod 5)).getD (i + 1) 0 →
        ([0, 0] : List (ZMod 5)).getD i 0 = ([0, 0] : List (ZMod 5)).getD (i + 1) 0 →
        ([1, 0] : List (ZMod 5)).getD i 0 = 0 ∧
        ([0, 0] : List (ZMod 5)).getD i 0 = 0 ∧
        ([0, 0] : List (ZMod 5)).getD i 0 = 0 ∧
        1 - ([1, 0] : List (ZMod 5)).getD i 0 - ([0, 0] : List (ZMod 5)).getD i 0
          - ([0, 0] : List (ZMod 5)).getD i 0 = 1)) ∧
    (([1, 0] : List (ZMod 5)).getD (2 - 1) 0 = 0 ∧
      ([0, 0] : List (ZMod 5)).getD (2 - 1) 0 = 0 ∧
      ([0, 0] : List (ZMod 5)).getD (2 - 1) 0 = 0) :=
  first_change_flags_one_hot [0, 1] [0, 0] [0, 0] 2 rfl rfl rfl
    (by norm_num) [1, 0] [0, 0] [0, 0] (by decide)

/-- C4: for a trace of `N ≥ 1` rows with flags generated by
`generate_first_change_flags`, `generate_range_check_value` returns, for
each row `i < N - 1`, the single flag-selected delta (context delta if the
context flag fired, else segment, else virtual, else the timestamp delta),
with the row `N - 1` entry equal to 0; and both evaluators emit a
transition-only constraint forcing the stored `range_check` column to
equal the same formula re-derived from the flags and columns. -/
theorem range_check_value_correct {F : Type} [Field F] [DecidableEq F]
    (context segment virtuals timestamp : List F) (N : ℕ)
    (hc : context.length = N) (hs : segment.length = N)
    (hv : virtuals.length = N) (ht : timestamp.length = N) (hN : 1 ≤ N)
    (cf sf vf rc : List F)
    (hflags : generate_first_change_flags context segment virtuals
      = some (cf, sf, vf))
    (hrc : generate_range_check_value context segment virtuals timestamp
      cf sf vf = some rc) :
    rc.length = N ∧
    (∀ i, i < N - 1 →
      rc.getD i 0 =
        if context.getD i 0 ≠ context.getD (i + 1) 0 then
          context.getD (i + 1) 0 - context.getD i 0 - 1
        else if segment.getD i 0 ≠ segment.getD (i + 1) 0 then
          segment.getD (i + 1) 0 - segment.getD i 0 - 1
        else if virtuals.getD i 0 ≠ virtuals.getD (i + 1) 0 then
          virtuals.getD (i + 1) 0 - virtuals.getD i 0 - 1
        else timestamp.getD (i + 1) 0 - timestamp.getD i 0 - 1) ∧
    rc.getD (N - 1) 0 = 0 ∧
    (∀ (R : Type) [CommRing R] (vars : StarkEvalVars R),
      (Tag.transition, vars.local_values RANGE_CHECK
        - (vars.local_values CONTEXT_FIRST_CHANGE
            * (vars.next_values SORTED_ADDR_CONTEXT
              - vars.local_values SORTED_ADDR_CONTEXT - 1)
          + vars.local_values SEGMENT_FIRST_CHANGE
            * (vars.next_values SORTED_ADDR_SEGMENT
              - vars.local_values SORTED_ADDR_SEGMENT - 1)
          + vars.local_values VIRTUAL_FIRST_CHANGE
            * (vars.next_values SORTED_ADDR_VIRTUAL
              - vars.local_values SORTED_ADDR_VIRTUAL - 1)
          + (1 - vars.local_values CONTEXT_FIRST_CHANGE
              - vars.local_values SEGMENT_FIRST_CHANGE
              - vars.local_values VIRTUAL_FIRST_CHANGE)
            * (vars.next_values SORTED_TIMESTAMP
              - vars.local_values SORTED_TIMESTAMP - 1)))
        ∈ eval_packed_generic vars ∧
      (Tag.transition, vars.local_values RANGE_CHECK
        - (vars.local_values CONTEXT_FIRST_CHANGE
            * (vars.next_values SORTED_ADDR_CONTEXT
              - vars.local_values SORTED_ADDR_CONTEXT - 1)
          + vars.local_values SEGMENT_FIRST_CHANGE
            * (vars.next_values SORTED_ADDR_SEGMENT
              - vars.local_values SORTED_ADDR_SEGMENT - 1)
          + vars.local_values VIRTUAL_FIRST_CHANGE
            * (vars.next_values SORTED_ADDR_VIRTUAL
              - vars.local_values SORTED_ADDR_VIRTUAL - 1)
          + (1 - vars.local_values CONTEXT_FIRST_CHANGE
              - vars.local_values SEGMENT_FIRST_CHANGE
              - vars.local_values VIRTUAL_FIRST_CHANGE)
            * (vars.next_values SORTED_TIMESTAMP
              - vars.local_values SORTED_TIMESTAMP - 1)))
        ∈ eval_ext_circuit vars) := by
  obtain ⟨hl1, hl2, hl3, hmid, hz1, hz2, hz3⟩ :=
    generate_first_change_flags_spec context segment virtuals cf sf vf hflags
  have hc0 : ¬context.length = 0 := by omega
  rw [generate_range_check_value, if_neg hc0] at hrc
  injection hrc with hrc
  subst hrc
  rw [hc] at hmid ⊢
  refine ⟨by simp; omega, ?_, ?_, ?_⟩
  · intro i hi
    rw [getD_map_range _ _ _ _ _ hi]
    dsimp only
    obtain ⟨e1, e2, e3⟩ := hmid i hi
    obtain ⟨t1, t2, t3, t4⟩ := firstChangeTriple_cases context segment virtuals i
    rw [e1, e2, e3]
    by_cases h1 : context.getD i 0 = context.getD (i + 1) 0
    · rw [if_neg (not_not_intro h1)]
      by_cases h2 : segment.getD i 0 = segment.getD (i + 1) 0
      · rw [if_neg (not_not_intro h2)]
        by_cases h3 : virtuals.getD i 0 = virtuals.getD (i + 1) 0
        · rw [if_neg (not_not_intro h3), t4 h1 h2 h3]
          dsimp only
          ring
        · rw [if_pos h3, t3 h1 h2 h3]
          dsimp only
          ring
      · rw [if_pos h2, t2 h1 h2]
        dsimp only
        ring
    · rw [if_pos h1, t1 h1]
      dsimp only
      ring
  · exact getD_map_range_last _ _ _ _
  · intro R instR vars
    constructor
    · simp only [eval_packed_generic]
      apply List.mem_append_left
      iterate 10 apply List.mem_cons_of_mem
      exact List.mem_cons_self _ _
    · simp only [eval_ext_circuit, one_extension, add_extension, sub_extension,
        mul_extension]
      apply List.mem_append_left
      iterate 10 apply List.mem_cons_of_mem
      exact List.mem_cons_self _ _

/-- Witness for C4 on the concrete two-row trace over `ZMod 5` with
`context = [0, 1]`, flags `([1, 0], [0, 0], [0, 0])` and timestamps
`[0, 1]`: the range-check column is `[0, 0]` and its last entry is 0. -/
theorem range_check_value_correct_witness :
    generate_range_check_value ([0, 1] : List (ZMod 5)) [0, 0] [0, 0] [0, 1]
        [1, 0] [0, 0] [0, 0] = some [0, 0] ∧
    ([0, 0] : List (ZMod 5)).length = 2 ∧
    ([0, 0] : List (ZMod 5)).getD (2 - 1) 0 = 0 :=
  ⟨by decide,
   (range_check_value_correct [0, 1] [0, 0] [0, 0] [0, 1] 2 rfl rfl rfl rfl
      (by norm_num) [1, 0] [0, 0] [0, 0] [0, 0] (by decide) (by decide)).1,
   (range_check_value_correct [0, 1] [0, 0] [0, 0] [0, 1] 2 rfl rfl rfl rfl
      (by norm_num) [1, 0] [0, 0] [0, 0] [0, 0] (by decide) (by decide)).2.2.1⟩

/-! ### Sorting (C6, C7) -/

lemma opKeyLex_trans {F : Type} (key : F → ℕ) (a b c : Op F)
    (hab : opKeyLex key a b) (hbc : opKeyLex key b c) : opKeyLex key a c := by
  unfold opKeyLex at *
  omega

lemma opKeyLex_total {F : Type} (key : F → ℕ) (a b : Op F) :
    opKeyLex key a b ∨ opKeyLex key b a := by
  unfold opKeyLex
  omega

lemma opKeyLex_trans_bool {F : Type} (key : F → ℕ) (a b c : Op F)
    (hab : decide (opKeyLex key a b) = true)
    (hbc : decide (opKeyLex key b c) = true) :
    decide (opKeyLex key a c) = true :=
  decide_eq_true (opKeyLex_trans key a b c (of_decide_eq_true hab)
    (of_decide_eq_true hbc))

lemma opKeyLex_total_bool {F : Type} (key : F → ℕ) (a b : Op F) :
    (decide (opKeyLex key a b) || decide (opKeyLex key b a)) = true := by
  rcases opKeyLex_total key a b with h | h <;> simp [h]

/-- Re-zipping the six projections of an operation list gives the list
back: `izip!` and `multiunzip` are mutually inverse repackaging. -/
lemma izipOps_proj {F : Type} (l : List (Op F)) :
    izipOps (l.map Op.timestamp) (l.map Op.is_read) (l.map Op.context)
      (l.map Op.segment) (l.map Op.virtuals) (l.map Op.values) = l := by
  induction l with
  | nil => rfl
  | cons a l ih => simp [izipOps, ih]

/-- C6: for every input of `N ≥ 1` operations (six column slices of common
length `N`), `sort_memory_ops` returns a permutation of the same `N`
operations, as tuples of timestamp, is_read, context, segment, virtual and
values, that is non-decreasing lexicographically by
`(context, segment, virtual, timestamp)` compared through the integer
representatives `key`. -/
theorem sort_memory_ops_perm_sorted {F : Type} (key : F → ℕ)
    (timestamp is_read context segment virtuals : List F)
    (values : List (List F)) (N : ℕ) (hN : 1 ≤ N)
    (ht : timestamp.length = N) (hr : is_read.length = N)
    (hc : context.length = N) (hs : segment.length = N)
    (hv : virtuals.length = N) (hw : values.length = N)
    (st sr sc ss sv : List F) (sw : List (List F))
    (heq : sort_memory_ops key timestamp is_read context segment virtuals
      values = (st, sr, sc, ss, sv, sw)) :
    (izipOps st sr sc ss sv sw).Perm
      (izipOps timestamp is_read context segment virtuals values) ∧
    List.Pairwise (opKeyLex key) (izipOps st sr sc ss sv sw) := by
  simp only [sort_memory_ops, Prod.mk.injEq] at heq
  obtain ⟨h1, h2, h3, h4, h5, h6⟩ := heq
  subst h1
  subst h2
  subst h3
  subst h4
  subst h5
  subst h6
  rw [izipOps_proj]
  refine ⟨List.mergeSort_perm _ _, ?_⟩
  exact (List.sorted_mergeSort (opKeyLex_trans_bool key)
    (opKeyLex_total_bool key) _).imp (fun h => of_decide_eq_true h)

/-- C7: sorting is idempotent: applying `sort_memory_ops` to the six
output columns of `sort_memory_ops` returns them unchanged. -/
theorem sort_memory_ops_idempotent {F : Type} (key : F → ℕ)
    (timestamp is_read context segment virtuals : List F)
    (values : List (List F)) :
    sort_memory_ops key
      (sort_memory_ops key timestamp is_read context segment virtuals values).1
      (sort_memory_ops key timestamp is_read context segment virtuals values).2.1
      (sort_memory_ops key timestamp is_read context segment virtuals values).2.2.1
      (sort_memory_ops key timestamp is_read context segment virtuals values).2.2.2.1
      (sort_memory_ops key timestamp is_read context segment virtuals values).2.2.2.2.1
      (sort_memory_ops key timestamp is_read context segment virtuals values).2.2.2.2.2
      = sort_memory_ops key timestamp is_read context segment virtuals values := by
  conv_rhs => rw [sort_memory_ops]
  simp only [sort_memory_ops, izipOps_proj]
  rw [List.mergeSort_of_sorted
    (List.sorted_mergeSort (opKeyLex_trans_bool key) (opKeyLex_total_bool key) _)]

unseal List.mergeSort List.merge in
/-- Witness for C6: sorting the concrete two-operation log with columns
`timestamp = [0, 1]`, `context = [1, 0]` (over `ℕ` representatives with
`key = id`) yields the swapped, sorted operation list. -/
theorem sort_memory_ops_perm_sorted_witness :
    (izipOps ([1, 0] : List ℕ) [0, 0] [0, 1] [0, 0] [0, 0]
        [[2], [1]]).Perm
      (izipOps ([0, 1] : List ℕ) [0, 0] [1, 0] [0, 0] [0, 0] [[1], [2]]) ∧
    List.Pairwise (opKeyLex (id : ℕ → ℕ))
      (izipOps ([1, 0] : List ℕ) [0, 0] [0, 1] [0, 0] [0, 0] [[2], [1]]) :=
  sort_memory_ops_perm_sorted id [0, 1] [0, 0] [1, 0] [0, 0] [0, 0]
    [[1], [2]] 2 (by norm_num) rfl rfl rfl rfl rfl rfl
    [1, 0] [0, 0] [0, 1] [0, 0] [0, 0] [[2], [1]] rfl

/-! ### Empty operation log (C9) -/

unseal List.mergeSort List.merge in
/-- C9: on an empty operation log, trace construction fails fast: both
`generate_first_change_flags` (whose loop bound `num_ops - 1` underflows)
and `generate_trace_rows` return no trace. -/
theorem empty_log_rejected {F : Type} [Field F] [DecidableEq F]
    (key : F → ℕ) :
    generate_first_change_flags ([] : List F) [] [] = none ∧
    generate_trace_rows key ([] : List (Op F)) = none := by
  constructor
  · rfl
  · rfl

/-! ### Frame property of generate_memory (C10) -/

/-- The trace columns written by `generate_memory`: the sorted columns,
the three first-change flags, `RANGE_CHECK`, `COUNTER` and the two
permuted lookup columns. -/
def writtenRegs : List (Fin NUM_REGISTERS) :=
  [SORTED_TIMESTAMP, SORTED_IS_READ, SORTED_ADDR_CONTEXT,
   SORTED_ADDR_SEGMENT, SORTED_ADDR_VIRTUAL, CONTEXT_FIRST_CHANGE,
   SEGMENT_FIRST_CHANGE, VIRTUAL_FIRST_CHANGE, RANGE_CHECK, COUNTER,
   RANGE_CHECK_PERMUTED, COUNTER_PERMUTED]
  ++ (List.finRange 8).map sorted_value_limb

/-- Reading a register not written by a fold of sorted-limb updates gives
the accumulator's value. -/
lemma foldl_update_limbs_noteq {F : Type} (w : Fin 8 → List F)
    (l : List (Fin 8)) (acc : Fin NUM_REGISTERS → List F)
    (r : Fin NUM_REGISTERS) (hr : ∀ j ∈ l, r ≠ sorted_value_limb j) :
    (l.foldl (fun acc j => Function.update acc (sorted_value_limb j) (w j))
      acc) r = acc r := by
  induction l generalizing acc with
  | nil => rfl
  | cons a l ih =>
    rw [List.foldl_cons, ih _ (fun j hj => hr j (List.mem_cons_of_mem a hj)),
      Function.update_noteq (hr a (List.mem_cons_self a l))]

/-- C10: `generate_memory` writes only the sorted columns, the flag
columns, `RANGE_CHECK`, `COUNTER` and the two permuted lookup columns; the
raw execution-order columns (timestamp, is_read, the three address columns
and the eight raw value limbs) are unchanged. -/
theorem generate_memory_frame {F : Type} [Field F] [DecidableEq F]
    (key : F → ℕ) (trace_cols out : Fin NUM_REGISTERS → List F)
    (h : generate_memory key trace_cols = some out) :
    (∀ r, r ∉ writtenRegs → out r = trace_cols r) ∧
    out TIMESTAMP = trace_cols TIMESTAMP ∧
    out IS_READ = trace_cols IS_READ ∧
    out ADDR_CONTEXT = trace_cols ADDR_CONTEXT ∧
    out ADDR_SEGMENT = trace_cols ADDR_SEGMENT ∧
    out ADDR_VIRTUAL = trace_cols ADDR_VIRTUAL ∧
    (∀ j : Fin 8, out (value_limb j) = trace_cols (value_limb j)) := by
  have hmain : ∀ r, r ∉ writtenRegs → out r = trace_cols r := by
    intro r hr
    simp only [writtenRegs, List.mem_append, List.mem_cons, List.mem_map,
      List.mem_finRange, List.not_mem_nil, or_false, not_or, true_and,
      not_exists] at hr
    obtain ⟨⟨n1, n2, n3, n4, n5, n6, n7, n8, n9, n10, n11, n12⟩, n13⟩ := hr
    simp only [generate_memory, Option.bind_eq_bind] at h
    obtain ⟨⟨cf, sf, vf⟩, hfl, h⟩ := Option.bind_eq_some.mp h
    obtain ⟨rc, hrc, h⟩ := Option.bind_eq_some.mp h
    injection h with h
    subst h
    rw [Function.update_noteq n12, Function.update_noteq n11,
      Function.update_noteq n10, Function.update_noteq n9,
      Function.update_noteq n8, Function.update_noteq n7,
      Function.update_noteq n6,
      foldl_update_limbs_noteq _ _ _ _ (fun j _ => fun he => n13 j he.symm),
      Function.update_noteq n5, Function.update_noteq n4,
      Function.update_noteq n3, Function.update_noteq n2,
      Function.update_noteq n1]
  exact ⟨hmain, hmain TIMESTAMP (by decide), hmain IS_READ (by decide),
    hmain ADDR_CONTEXT (by decide), hmain ADDR_SEGMENT (by decide),
    hmain ADDR_VIRTUAL (by decide),
    fun j => hmain (value_limb j) (by revert j; decide)⟩

/-- A one-row trace over `ZMod 5` with every column `[0]`. -/
def oneRowCols : Fin NUM_REGISTERS → List (ZMod 5) := fun r => [0]

/-- The columns produced by `generate_memory` on `oneRowCols`. -/
def oneRowOut : Fin NUM_REGISTERS → List (ZMod 5) :=
  (generate_memory (fun x => x.val) oneRowCols).getD (fun r => [])

set_option maxHeartbeats 2000000 in
unseal List.mergeSort List.merge in
/-- Witness for C10: on the concrete one-row trace, `generate_memory`
succeeds and the raw `TIMESTAMP` column is unchanged. -/
theorem generate_memory_frame_witness :
    generate_memory (fun x => x.val) oneRowCols = some oneRowOut ∧
    oneRowOut TIMESTAMP = oneRowCols TIMESTAMP :=
  ⟨rfl, (generate_memory_frame (fun x => x.val) oneRowCols oneRowOut rfl).2.1⟩

end MemoryStarkSpec
